import Mathlib

/-!
Verification of the kpmcore `ResizeOperation` engine (src/ops/resizeoperation.cpp)
through a shallow embedding in Lean 4. The definitions below are translated from
the C++ source; a handful of collaborator primitives whose implementation files
are not part of the excerpt (job primitives, `CheckOperation::canCheck`, the
header enum values) are modelled from the specification and marked as such.
-/

namespace KpmCore

/-- `FileSystem::CommandSupportType` (fs/filesystem.h, declared and used by the
excerpt headers fs/apfs.h and fs/linuxswap.h): the capability tier a filesystem
reports for a verb. The eligibility predicates only compare against
`cmdSupportNone`. -/
inductive CommandSupportType where
  | cmdSupportNone
  | cmdSupportCore
  | cmdSupportFileSystem
  | cmdSupportBackend
deriving DecidableEq, Repr

/-- `FileSystem::Type` values used by resizeoperation.cpp
(`Lvm2_PV`, `Luks`, `Luks2`); every other filesystem type is collapsed into
representative constructors, which is sound because the code only ever compares
against the three named ones. -/
inductive FSType where
  | Lvm2_PV
  | Luks
  | Luks2
  | Ext4
  | LinuxSwap
  | ExtendedFS
  | OtherFS
deriving DecidableEq, Repr

/-- `Partition::State`: provenance of a partition (resizeoperation.cpp compares
against `New` and `Copy`). -/
inductive PartitionState where
  | StateNone
  | New
  | Copy
  | Restore
deriving DecidableEq, Repr

/-- The subset of `PartitionRole` flags read by resizeoperation.cpp:
`roles().has(PartitionRole::Extended)` and `roles().has(PartitionRole::Luks)`. -/
structure PartitionRoles where
  extended : Bool
  luks : Bool
deriving DecidableEq, Repr

/-- `PartitionTable::TableType`; the code only compares against the sentinel
`none` (whole-device filesystem without a table). -/
inductive TableType where
  | none
  | gpt
  | msdos
  | other
deriving DecidableEq, Repr

/-- The capability surface of a `FileSystem` object as consumed (read-only) by
resizeoperation.cpp: its type, the inner filesystem type for a LUKS container
(`FS::luks::innerFS()`, absent when not set up), and the support tiers. -/
structure FileSystemModel where
  type : FSType
  innerFSType : Option FSType
  supportGrow : CommandSupportType
  supportShrink : CommandSupportType
  supportMove : CommandSupportType
  supportCheck : CommandSupportType
  supportGrowOnline : Bool
  supportShrinkOnline : Bool
deriving DecidableEq, Repr

/-- A `Partition` as read by resizeoperation.cpp: sector range (inclusive),
state, roles, mount state, the type of its owning partition table, its
filesystem, and whether it is a member of `LvmDevice::s_DirtyPVs` (the
process-wide set of physical volumes of not-yet-committed volume groups). -/
structure Partition where
  firstSector : Int
  lastSector : Int
  state : PartitionState
  roles : PartitionRoles
  hasChildren : Bool
  isMounted : Bool
  tableType : TableType
  fileSystem : FileSystemModel
  inDirtyPVs : Bool
deriving DecidableEq, Repr

/-- `Partition::length()`: sector count of the inclusive range. -/
def Partition.length (p : Partition) : Int :=
  p.lastSector - p.firstSector + 1

/-- `ResizeOperation::isLVMPVinNewlyVG` (resizeoperation.cpp lines 406-425):
true when the partition is an LVM physical volume, possibly inside a LUKS
container, that belongs to a dirty (uncommitted) volume group. -/
def isLVMPVinNewlyVG (p : Partition) : Bool :=
  if p.fileSystem.type = FSType.Lvm2_PV then
    p.inDirtyPVs
  else if p.fileSystem.type = FSType.Luks || p.fileSystem.type = FSType.Luks2 then
    match p.fileSystem.innerFSType with
    | some t => if t = FSType.Lvm2_PV then p.inDirtyPVs else false
    | none => false
  else
    false

/-- `ResizeOperation::canGrow` (resizeoperation.cpp lines 324-344); the
argument is `Option Partition` because the C++ pointer may be null. -/
def canGrow (p : Option Partition) : Bool :=
  match p with
  | Option.none => false
  | some p =>
    if p.tableType = TableType.none then false
    else if isLVMPVinNewlyVG p then false
    else if p.state = PartitionState.New && !p.roles.luks then true
    else if p.isMounted then p.fileSystem.supportGrowOnline
    else p.fileSystem.supportGrow != CommandSupportType.cmdSupportNone

/-- `ResizeOperation::canShrink` (resizeoperation.cpp lines 350-373). -/
def canShrink (p : Option Partition) : Bool :=
  match p with
  | Option.none => false
  | some p =>
    if p.tableType = TableType.none then false
    else if isLVMPVinNewlyVG p then false
    else if p.state = PartitionState.New && !p.roles.luks then true
    else if p.state = PartitionState.Copy then false
    else if p.isMounted then p.fileSystem.supportShrinkOnline
    else p.fileSystem.supportShrink != CommandSupportType.cmdSupportNone

/-- `ResizeOperation::canMove` (resizeoperation.cpp lines 379-404). -/
def canMove (p : Option Partition) : Bool :=
  match p with
  | Option.none => false
  | some p =>
    if p.tableType = TableType.none then false
    else if isLVMPVinNewlyVG p then false
    else if p.state = PartitionState.New then (if p.roles.luks then false else true)
    else if p.isMounted then false
    else if p.roles.extended && p.hasChildren then false
    else p.fileSystem.supportMove != CommandSupportType.cmdSupportNone

namespace ResizeAction

/-- Modelled from the spec: the `ResizeAction` enumerator values live in
ops/resizeoperation.h, which is not part of the excerpt (only the .cpp is).
The spec describes the action as a bitmask over MoveLeft, MoveRight, Grow and
Shrink, with the four move+resize pairings as bit unions, and `None` as the
empty mask. -/
def NoneAction : Nat := 0

/-- Modelled from the spec: MoveLeft bit of the `ResizeAction` bitmask. -/
def MoveLeft : Nat := 1

/-- Modelled from the spec: MoveRight bit of the `ResizeAction` bitmask. -/
def MoveRight : Nat := 2

/-- Modelled from the spec: Grow bit of the `ResizeAction` bitmask. -/
def Grow : Nat := 4

/-- Modelled from the spec: Shrink bit of the `ResizeAction` bitmask. -/
def Shrink : Nat := 8

/-- Modelled from the spec: the MoveLeft+Grow pairing of the bitmask. -/
def MoveLeftGrow : Nat := MoveLeft ||| Grow

/-- Modelled from the spec: the MoveRight+Grow pairing of the bitmask. -/
def MoveRightGrow : Nat := MoveRight ||| Grow

/-- Modelled from the spec: the MoveLeft+Shrink pairing of the bitmask. -/
def MoveLeftShrink : Nat := MoveLeft ||| Shrink

/-- Modelled from the spec: the MoveRight+Shrink pairing of the bitmask. -/
def MoveRightShrink : Nat := MoveRight ||| Shrink

end ResizeAction

/-- `ResizeOperation::resizeAction` (resizeoperation.cpp lines 232-253),
expressed on the four cached sector values. `origLength`/`newLength` are the
inclusive lengths `last - first + 1`. The two plain assignments of the source
(`action = Grow`, `action = Shrink`) are kept as assignments, the two move
cases as bit-or, exactly as in the source. -/
def resizeAction (origFirst origLast newFirst newLast : Int) : Nat :=
  let origLength := origLast - origFirst + 1
  let newLength := newLast - newFirst + 1
  let action := ResizeAction.NoneAction
  let action := if newLength > origLength then ResizeAction.Grow else action
  let action := if newLength < origLength then ResizeAction.Shrink else action
  let action := if newFirst > origFirst then action ||| ResizeAction.MoveRight else action
  let action := if newFirst < origFirst then action ||| ResizeAction.MoveLeft else action
  action

/-- `Operation::OperationStatus` (ops/operation.h lines 77-84). -/
inductive OperationStatus where
  | StatusNone
  | StatusPending
  | StatusRunning
  | StatusFinishedSuccess
  | StatusFinishedWarning
  | StatusError
deriving DecidableEq, Repr

/-- A Job instance as composed by `ResizeOperation`, carrying the parameters it
was constructed with: `CheckFileSystemJob(partition)`,
`SetPartGeometryJob(device, partition, newStart, newLength)`,
`ResizeFileSystemJob(device, partition, newLength)`,
`MoveFileSystemJob(device, partition, newStart)` (jobs/*.h, declared in the
excerpt and constructed in resizeoperation.cpp). -/
inductive Job where
  | checkFileSystem
  | setPartGeometry (newStart newLength : Int)
  | resizeFileSystem (newLength : Int)
  | moveFileSystem (newStart : Int)
deriving DecidableEq, Repr

/-- True exactly for a geometry-set job. -/
def Job.isSetGeometry : Job → Bool
  | Job.setPartGeometry _ _ => true
  | _ => false

/-- True exactly for the filesystem jobs: resize-filesystem, move-filesystem
and check-filesystem. -/
def Job.isFileSystemJob : Job → Bool
  | Job.resizeFileSystem _ => true
  | Job.moveFileSystem _ => true
  | Job.checkFileSystem => true
  | _ => false

/-- The in-memory geometry of the target partition: first and last sector,
inclusive. -/
structure PartGeom where
  firstSector : Int
  lastSector : Int
deriving DecidableEq, Repr

/-- Sector count of the inclusive range, as `Partition::length()`. -/
def PartGeom.length (g : PartGeom) : Int :=
  g.lastSector - g.firstSector + 1

/-- State threaded through `execute`: the partition geometry, plus the ordered
trace of every job invocation with its outcome (the trace realises the Report
and the observable sequence of `run` calls). -/
structure ExecState where
  geom : PartGeom
  trace : List (Job × Bool)
deriving DecidableEq, Repr

/-- Modelled from the spec: effect of a successful job run on the in-memory
partition (the jobs/*.cpp implementations are not part of the excerpt). A
geometry-set job installs the new first sector and length; the filesystem jobs
relocate or resize content and do not touch the sector fields. -/
def applyJob : Job → PartGeom → PartGeom
  | Job.setPartGeometry newStart newLength, _ =>
      { firstSector := newStart, lastSector := newStart + newLength - 1 }
  | _, g => g

/-- Modelled from the spec: `Job::run(report) -> bool` for the job primitives
(implementations not in the excerpt). The success or failure of the n-th job
run is supplied by the oracle `env`; a failed job leaves the in-memory
geometry unchanged. Every invocation is appended to the trace. -/
def runJob (env : Nat → Bool) (s : ExecState) (j : Job) : Bool × ExecState :=
  let ok := env s.trace.length
  (ok, { geom := if ok then applyJob j s.geom else s.geom, trace := s.trace ++ [(j, ok)] })

/-- Runs an optional job, mirroring the C++ guard `if (job() && !job()->run())`:
an absent job counts as success and runs nothing. -/
def runOptJob (env : Nat → Bool) (s : ExecState) : Option Job → Bool × ExecState
  | some j => runJob env s j
  | Option.none => (true, s)

/-- The construction-time data of a `ResizeOperation` (resizeoperation.cpp
lines 44-102): whether the target is an Extended partition, whether
`CheckOperation::canCheck` held for it, and the four cached sector values. -/
structure ResizeOperation where
  isExtended : Bool
  canCheckFS : Bool
  origFirstSector : Int
  origLastSector : Int
  newFirstSector : Int
  newLastSector : Int
deriving DecidableEq, Repr

/-- `ResizeOperation::origLength()`. -/
def ResizeOperation.origLength (op : ResizeOperation) : Int :=
  op.origLastSector - op.origFirstSector + 1

/-- `ResizeOperation::newLength()`. -/
def ResizeOperation.newLength (op : ResizeOperation) : Int :=
  op.newLastSector - op.newFirstSector + 1

/-- `ResizeOperation::resizeAction()` on the cached sector values. -/
def ResizeOperation.action (op : ResizeOperation) : Nat :=
  resizeAction op.origFirstSector op.origLastSector op.newFirstSector op.newLastSector

/-- `m_MoveExtendedJob`: set in the ctor only for an Extended partition, to
`SetPartGeometryJob(device, partition, newFirstSector, newLength)`
(resizeoperation.cpp line 66). -/
def ResizeOperation.moveExtendedJob (op : ResizeOperation) : Option Job :=
  if op.isExtended then some (Job.setPartGeometry op.newFirstSector op.newLength) else Option.none

/-- `m_ShrinkResizeJob`: set when the Shrink bit holds, to
`ResizeFileSystemJob(device, partition, newLength)` (line 70). -/
def ResizeOperation.shrinkResizeJob (op : ResizeOperation) : Option Job :=
  if !op.isExtended && (op.action &&& ResizeAction.Shrink != 0) then
    some (Job.resizeFileSystem op.newLength)
  else Option.none

/-- `m_ShrinkSetGeomJob`: set when the Shrink bit holds, to
`SetPartGeometryJob(device, partition, partition.firstSector, newLength)`
(line 71); at construction time the partition first sector equals the cached
`m_OrigFirstSector`, initialised from it a few lines above. -/
def ResizeOperation.shrinkSetGeomJob (op : ResizeOperation) : Option Job :=
  if !op.isExtended && (op.action &&& ResizeAction.Shrink != 0) then
    some (Job.setPartGeometry op.origFirstSector op.newLength)
  else Option.none

/-- The length the move jobs are constructed with (line 80): the new length if
the partition is also being shrunk, else the construction-time
`partition().length()`, which equals the cached original length. -/
def ResizeOperation.moveCurrentLength (op : ResizeOperation) : Int :=
  if op.action &&& ResizeAction.Shrink != 0 then op.newLength else op.origLength

/-- `m_MoveSetGeomJob`: set when MoveLeft or MoveRight holds, to
`SetPartGeometryJob(device, partition, newFirstSector, currentLength)`
(line 82). -/
def ResizeOperation.moveSetGeomJob (op : ResizeOperation) : Option Job :=
  if !op.isExtended &&
      ((op.action &&& ResizeAction.MoveLeft != 0) || (op.action &&& ResizeAction.MoveRight != 0)) then
    some (Job.setPartGeometry op.newFirstSector op.moveCurrentLength)
  else Option.none

/-- `m_MoveFileSystemJob`: set when MoveLeft or MoveRight holds, to
`MoveFileSystemJob(device, partition, newFirstSector)` (line 83). -/
def ResizeOperation.moveFileSystemJob (op : ResizeOperation) : Option Job :=
  if !op.isExtended &&
      ((op.action &&& ResizeAction.MoveLeft != 0) || (op.action &&& ResizeAction.MoveRight != 0)) then
    some (Job.moveFileSystem op.newFirstSector)
  else Option.none

/-- `m_GrowSetGeomJob`: set when the Grow bit holds, to
`SetPartGeometryJob(device, partition, newFirstSector, newLength)` (line 90). -/
def ResizeOperation.growSetGeomJob (op : ResizeOperation) : Option Job :=
  if !op.isExtended && (op.action &&& ResizeAction.Grow != 0) then
    some (Job.setPartGeometry op.newFirstSector op.newLength)
  else Option.none

/-- `m_GrowResizeJob`: set when the Grow bit holds, to
`ResizeFileSystemJob(device, partition, newLength)` (line 91). -/
def ResizeOperation.growResizeJob (op : ResizeOperation) : Option Job :=
  if !op.isExtended && (op.action &&& ResizeAction.Grow != 0) then
    some (Job.resizeFileSystem op.newLength)
  else Option.none

/-- The ordered Job list built by the `addJob` calls of the ctor
(resizeoperation.cpp lines 62-101): optional pre-check, then either the single
extended-partition geometry job, or the shrink, move and grow pairs followed by
the optional post-check. -/
def ResizeOperation.jobs (op : ResizeOperation) : List Job :=
  (if op.canCheckFS then [Job.checkFileSystem] else []) ++
  if op.isExtended then
    [Job.setPartGeometry op.newFirstSector op.newLength]
  else
    op.shrinkResizeJob.toList ++ op.shrinkSetGeomJob.toList ++
    op.moveSetGeomJob.toList ++ op.moveFileSystemJob.toList ++
    op.growSetGeomJob.toList ++ op.growResizeJob.toList ++
    (if op.canCheckFS then [Job.checkFileSystem] else [])

/-- Modelled from the spec: `CheckOperation::canCheck` (ops/checkoperation.cpp
is not part of the excerpt; only its declaration and callers are). Per the
spec, the consistency check runs only when the filesystem type supports
checking, and an Extended partition carries no filesystem, so it supports no
checking. The argument is optional because the C++ pointer may be null. -/
def canCheck (p : Option Partition) : Bool :=
  match p with
  | Option.none => false
  | some p =>
      !p.roles.extended && (p.fileSystem.supportCheck != CommandSupportType.cmdSupportNone)

/-- The `ResizeOperation` ctor (resizeoperation.cpp lines 44-102) as a function
of the target partition and the requested new sector range: it caches the
current sector range as the original one and decides job composition from the
Extended role and `CheckOperation::canCheck`. -/
def mkResizeOperation (p : Partition) (newfirst newlast : Int) : ResizeOperation :=
  { isExtended := p.roles.extended
    canCheckFS := canCheck (some p)
    origFirstSector := p.firstSector
    origLastSector := p.lastSector
    newFirstSector := newfirst
    newLastSector := newlast }

/-- `ResizeOperation::shrink` (resizeoperation.cpp lines 255-271): run the
shrink-filesystem job, then the shrink-geometry job; a failure of either
returns false at once, with no compensation job. -/
def ResizeOperation.shrink (op : ResizeOperation) (env : Nat → Bool) (s : ExecState) :
    Bool × ExecState :=
  let r1 := runOptJob env s op.shrinkResizeJob
  if !r1.1 then (false, r1.2)
  else
    let r2 := runOptJob env r1.2 op.shrinkSetGeomJob
    if !r2.1 then (false, r2.2)
    else (true, r2.2)

/-- `ResizeOperation::move` (resizeoperation.cpp lines 273-297): remember the
old start, run the move-geometry job, then the move-filesystem job; if the
latter fails, run a freshly constructed
`SetPartGeometryJob(device, partition, oldStart, partition.length)` to move the
partition back, and return false regardless of the outcome of that job. -/
def ResizeOperation.move (op : ResizeOperation) (env : Nat → Bool) (s : ExecState) :
    Bool × ExecState :=
  let oldStart := s.geom.firstSector
  let r1 := runOptJob env s op.moveSetGeomJob
  if !r1.1 then (false, r1.2)
  else
    let r2 := runOptJob env r1.2 op.moveFileSystemJob
    if !r2.1 then
      let r3 := runJob env r2.2 (Job.setPartGeometry oldStart r2.2.geom.length)
      (false, r3.2)
    else (true, r2.2)

/-- `ResizeOperation::grow` (resizeoperation.cpp lines 299-318): remember the
old length, run the grow-geometry job, then the grow-filesystem job; if the
latter fails, run a freshly constructed
`SetPartGeometryJob(device, partition, partition.firstSector, oldLength)` to
restore the old size, and return false regardless of its outcome. -/
def ResizeOperation.grow (op : ResizeOperation) (env : Nat → Bool) (s : ExecState) :
    Bool × ExecState :=
  let oldLength := s.geom.length
  let r1 := runOptJob env s op.growSetGeomJob
  if !r1.1 then (false, r1.2)
  else
    let r2 := runOptJob env r1.2 op.growResizeJob
    if !r2.1 then
      let r3 := runJob env r2.2 (Job.setPartGeometry r2.2.geom.firstSector oldLength)
      (false, r3.2)
    else (true, r2.2)

/-- `ResizeOperation::execute` (resizeoperation.cpp lines 140-178): pre-check
when checking is supported; on success either the single extended-partition
geometry job, or shrink, move and grow in sequence with short-circuit on
failure, followed by the post-check when supported; the terminal status is
`StatusFinishedSuccess` exactly when the overall result is true, else
`StatusError`. Returns (result, terminal status, final state). -/
def ResizeOperation.execute (op : ResizeOperation) (env : Nat → Bool) (s : ExecState) :
    Bool × OperationStatus × ExecState :=
  let r0 := if op.canCheckFS then runJob env s Job.checkFileSystem else (true, s)
  let r :=
    if r0.1 then
      match op.moveExtendedJob with
      | some j => runJob env r0.2 j
      | Option.none =>
        let r1 := op.shrink env r0.2
        if !r1.1 then (false, r1.2)
        else
          let r2 := op.move env r1.2
          if !r2.1 then (false, r2.2)
          else
            let r3 := op.grow env r2.2
            if !r3.1 then (false, r3.2)
            else if op.canCheckFS then runJob env r3.2 Job.checkFileSystem
            else (true, r3.2)
    else r0
  (r.1, if r.1 then OperationStatus.StatusFinishedSuccess else OperationStatus.StatusError, r.2)

/-- `ResizeOperation::preview` (resizeoperation.cpp lines 114-130) restricted
to the sector fields of the target partition: if the partition already sits at
the new range (already-executed case) it is first reset to the original range,
then it is removed from the preview table, given the new first and last
sectors, and re-inserted. `removePreviewPartition` and
`insertPreviewPartition` (ops/operation.cpp, not part of the excerpt) detach
and re-attach the partition in the device preview table and do not modify its
sector fields, so on the geometry they are the identity. -/
def ResizeOperation.preview (op : ResizeOperation) (g : PartGeom) : PartGeom :=
  let g1 :=
    if g.firstSector == op.newFirstSector && g.lastSector == op.newLastSector then
      { firstSector := op.origFirstSector, lastSector := op.origLastSector }
    else g
  let g2 := { g1 with firstSector := op.newFirstSector }
  let g3 := { g2 with lastSector := op.newLastSector }
  g3

/-- `ResizeOperation::undo` (resizeoperation.cpp lines 132-138) restricted to
the sector fields: remove from the preview table, restore the original first
and last sectors, re-insert. -/
def ResizeOperation.undo (op : ResizeOperation) (g : PartGeom) : PartGeom :=
  let g1 := { g with firstSector := op.origFirstSector }
  let g2 := { g1 with lastSector := op.origLastSector }
  g2

/-! ## Concrete instances used as witnesses and counterexamples -/

/-- An ext4-style filesystem with full offline capability support. -/
def exampleFS : FileSystemModel :=
  { type := FSType.Ext4
    innerFSType := Option.none
    supportGrow := CommandSupportType.cmdSupportFileSystem
    supportShrink := CommandSupportType.cmdSupportFileSystem
    supportMove := CommandSupportType.cmdSupportFileSystem
    supportCheck := CommandSupportType.cmdSupportFileSystem
    supportGrowOnline := false
    supportShrinkOnline := false }

/-- An existing primary ext4 partition at sectors 1000-1999 on a GPT table. -/
def examplePartition : Partition :=
  { firstSector := 1000
    lastSector := 1999
    state := PartitionState.StateNone
    roles := { extended := false, luks := false }
    hasChildren := false
    isMounted := false
    tableType := TableType.gpt
    fileSystem := exampleFS
    inDirtyPVs := false }

/-- The same partition in `New` state, without the Luks role. -/
def exampleNewPartition : Partition :=
  { examplePartition with state := PartitionState.New }

/-- A `New`-state partition with the Luks role whose (un-probed) container
filesystem reports no grow or shrink support. -/
def luksNewPartition : Partition :=
  { examplePartition with
    state := PartitionState.New
    roles := { extended := false, luks := true }
    fileSystem :=
      { exampleFS with
        type := FSType.Luks
        innerFSType := some FSType.Ext4
        supportGrow := CommandSupportType.cmdSupportNone
        supportShrink := CommandSupportType.cmdSupportNone } }

/-- An Extended partition at sectors 1000-1999. -/
def extendedPartition : Partition :=
  { examplePartition with roles := { extended := true, luks := false } }

/-- Initial execution state: the partition at its original range, empty trace. -/
def exampleInitState : ExecState :=
  { geom := { firstSector := 1000, lastSector := 1999 }, trace := [] }

/-- A pure shrink of the example partition: 1000-1999 to 1000-1499. -/
def exampleShrinkOp : ResizeOperation :=
  mkResizeOperation examplePartition 1000 1499

/-- A pure move of the example partition: 1000-1999 to 500-1499. -/
def exampleMoveOp : ResizeOperation :=
  mkResizeOperation examplePartition 500 1499

/-- A pure grow of the example partition: 1000-1999 to 1000-2499. -/
def exampleGrowOp : ResizeOperation :=
  mkResizeOperation examplePartition 1000 2499

/-- A job-outcome oracle under which exactly the n-th job run fails. -/
def envFailAt (n : Nat) : Nat → Bool :=
  fun k => k != n

/-! ## Claims -/

/-- C1: for every quadruple of original and new sector ranges, `resizeAction`
returns `None` exactly when the new first sector equals the original one and
the lengths are equal; otherwise it returns one of the eight non-`None`
combinations of Grow, Shrink, MoveLeft and MoveRight; the result never has
both the Grow and the Shrink bit, and never has both the MoveLeft and the
MoveRight bit. -/
theorem resizeAction_classification (origFirst origLast newFirst newLast : Int) :
    (resizeAction origFirst origLast newFirst newLast = ResizeAction.NoneAction ↔
      newFirst = origFirst ∧ newLast - newFirst + 1 = origLast - origFirst + 1)
    ∧ (resizeAction origFirst origLast newFirst newLast ≠ ResizeAction.NoneAction →
        resizeAction origFirst origLast newFirst newLast ∈
          [ResizeAction.Grow, ResizeAction.Shrink, ResizeAction.MoveLeft,
           ResizeAction.MoveRight, ResizeAction.MoveLeftGrow, ResizeAction.MoveRightGrow,
           ResizeAction.MoveLeftShrink, ResizeAction.MoveRightShrink])
    ∧ ¬(resizeAction origFirst origLast newFirst newLast &&& ResizeAction.Grow ≠ 0 ∧
        resizeAction origFirst origLast newFirst newLast &&& ResizeAction.Shrink ≠ 0)
    ∧ ¬(resizeAction origFirst origLast newFirst newLast &&& ResizeAction.MoveLeft ≠ 0 ∧
        resizeAction origFirst origLast newFirst newLast &&& ResizeAction.MoveRight ≠ 0) := by
  simp only [resizeAction, ResizeAction.NoneAction, ResizeAction.Grow, ResizeAction.Shrink,
    ResizeAction.MoveLeft, ResizeAction.MoveRight, ResizeAction.MoveLeftGrow,
    ResizeAction.MoveRightGrow, ResizeAction.MoveLeftShrink, ResizeAction.MoveRightShrink]
  split_ifs <;>
    exact ⟨by constructor <;> intro h <;>
        first
          | exact absurd h (by decide)
          | omega
          | exact absurd h (by omega),
      by first | decide | (exfalso; omega),
      by first | decide | (exfalso; omega),
      by first | decide | (exfalso; omega)⟩

/-- C1 witness: a concrete move-left-and-shrink request is classified into one
of the eight non-`None` combinations. -/
theorem resizeAction_classification_witness :
    resizeAction 1000 1999 500 999 ∈
      [ResizeAction.Grow, ResizeAction.Shrink, ResizeAction.MoveLeft,
       ResizeAction.MoveRight, ResizeAction.MoveLeftGrow, ResizeAction.MoveRightGrow,
       ResizeAction.MoveLeftShrink, ResizeAction.MoveRightShrink] :=
  (resizeAction_classification 1000 1999 500 999).2.1 (by decide)

/-- C10: each of the eligibility predicates returns false for an absent (null)
partition argument; the null case is a defined, total branch. -/
theorem eligibility_null_is_false :
    canGrow Option.none = false ∧ canShrink Option.none = false
    ∧ canMove Option.none = false :=
  ⟨rfl, rfl, rfl⟩

/-- C7: preview followed by undo puts the first and last sector of the target
partition back at their construction-time original values; in particular, when
the geometry before preview equals the construction-time range, the round trip
restores the exact pre-preview state. -/
theorem preview_undo_restores_original (op : ResizeOperation) (g : PartGeom) :
    (op.undo (op.preview g)).firstSector = op.origFirstSector
    ∧ (op.undo (op.preview g)).lastSector = op.origLastSector
    ∧ (g.firstSector = op.origFirstSector → g.lastSector = op.origLastSector →
        op.undo (op.preview g) = g) := by
  refine ⟨rfl, rfl, fun h1 h2 => ?_⟩
  obtain ⟨f, l⟩ := g
  simp only [ResizeOperation.undo, ResizeOperation.preview] at *
  simp_all

/-- C7 witness: the round trip on the concrete move operation restores the
partition range 1000-1999. -/
theorem preview_undo_restores_original_witness :
    exampleMoveOp.undo (exampleMoveOp.preview { firstSector := 1000, lastSector := 1999 }) =
      { firstSector := 1000, lastSector := 1999 } :=
  (preview_undo_restores_original exampleMoveOp
    { firstSector := 1000, lastSector := 1999 }).2.2 rfl rfl

/-- C8: after one preview the partition sits at the new sector range, and a
second preview from that state leaves it there: the state equals the state
after a single call. -/
theorem preview_idempotent_at_target (op : ResizeOperation) (g : PartGeom) :
    (op.preview g).firstSector = op.newFirstSector
    ∧ (op.preview g).lastSector = op.newLastSector
    ∧ op.preview (op.preview g) = op.preview g :=
  ⟨rfl, rfl, rfl⟩

/-- C3: for a partition whose roles include Extended, the constructor composes
exactly one geometry-set job and zero filesystem jobs (no resize-filesystem,
move-filesystem or check-filesystem job), and execute runs exactly that single
geometry job. -/
theorem extended_only_geometry_job (p : Partition) (newfirst newlast : Int)
    (hext : p.roles.extended = true) :
    (mkResizeOperation p newfirst newlast).jobs.countP Job.isSetGeometry = 1
    ∧ (mkResizeOperation p newfirst newlast).jobs.countP Job.isFileSystemJob = 0
    ∧ (mkResizeOperation p newfirst newlast).jobs =
        [Job.setPartGeometry newfirst (newlast - newfirst + 1)]
    ∧ ∀ (env : Nat → Bool) (s : ExecState),
        ((mkResizeOperation p newfirst newlast).execute env s).2.2.trace =
          s.trace ++
            [(Job.setPartGeometry newfirst (newlast - newfirst + 1), env s.trace.length)] := by
  have hjobs : (mkResizeOperation p newfirst newlast).jobs =
      [Job.setPartGeometry newfirst (newlast - newfirst + 1)] := by
    simp [mkResizeOperation, ResizeOperation.jobs, canCheck, hext, ResizeOperation.newLength]
  refine ⟨by rw [hjobs]; rfl, by rw [hjobs]; rfl, hjobs, fun env s => ?_⟩
  simp [mkResizeOperation, ResizeOperation.execute, ResizeOperation.moveExtendedJob, canCheck,
    hext, runJob, ResizeOperation.newLength]

/-- C3 witness: the concrete Extended partition resized and moved to 900-2099
gets exactly the single geometry job, which is the only job execute runs. -/
theorem extended_only_geometry_job_witness :
    (mkResizeOperation extendedPartition 900 2099).jobs = [Job.setPartGeometry 900 1200]
    ∧ ((mkResizeOperation extendedPartition 900 2099).execute (envFailAt 7)
        exampleInitState).2.2.trace = [(Job.setPartGeometry 900 1200, true)] := by
  have h := extended_only_geometry_job extendedPartition 900 2099 rfl
  exact ⟨by rw [h.2.2.1]; rfl, by rw [h.2.2.2 (envFailAt 7) exampleInitState]; rfl⟩

/-- C5: for a non-Extended partition the composed job list is: the optional
pre-check first, then shrink-filesystem before shrink-geometry (present iff
the Shrink bit is set), then move-geometry before move-filesystem (present iff
MoveLeft or MoveRight is set), then grow-geometry before grow-filesystem
(present iff the Grow bit is set), then the optional post-check, the two
checks present exactly when the filesystem supports checking. -/
theorem jobs_composition_order (p : Partition) (newfirst newlast : Int)
    (hext : p.roles.extended = false) :
    (mkResizeOperation p newfirst newlast).jobs =
      (if canCheck (some p) then [Job.checkFileSystem] else []) ++
      (if (mkResizeOperation p newfirst newlast).action &&& ResizeAction.Shrink != 0 then
        [Job.resizeFileSystem (newlast - newfirst + 1),
         Job.setPartGeometry p.firstSector (newlast - newfirst + 1)]
       else []) ++
      (if ((mkResizeOperation p newfirst newlast).action &&& ResizeAction.MoveLeft != 0)
          || ((mkResizeOperation p newfirst newlast).action &&& ResizeAction.MoveRight != 0) then
        [Job.setPartGeometry newfirst (mkResizeOperation p newfirst newlast).moveCurrentLength,
         Job.moveFileSystem newfirst]
       else []) ++
      (if (mkResizeOperation p newfirst newlast).action &&& ResizeAction.Grow != 0 then
        [Job.setPartGeometry newfirst (newlast - newfirst + 1),
         Job.resizeFileSystem (newlast - newfirst + 1)]
       else []) ++
      (if canCheck (some p) then [Job.checkFileSystem] else []) := by
  simp only [ResizeOperation.jobs, ResizeOperation.shrinkResizeJob,
    ResizeOperation.shrinkSetGeomJob, ResizeOperation.moveSetGeomJob,
    ResizeOperation.moveFileSystemJob, ResizeOperation.growSetGeomJob,
    ResizeOperation.growResizeJob, mkResizeOperation, ResizeOperation.newLength, hext,
    Bool.not_false, Bool.true_and]
  split_ifs <;> simp_all

/-- C5 witness: the concrete pure-move operation composes pre-check, then the
move pair in geometry-before-filesystem order, then the post-check. -/
theorem jobs_composition_order_witness :
    exampleMoveOp.jobs =
      [Job.checkFileSystem, Job.setPartGeometry 500 1000, Job.moveFileSystem 500,
       Job.checkFileSystem] := by
  have h := jobs_composition_order examplePartition 500 1499 rfl
  rw [show exampleMoveOp = mkResizeOperation examplePartition 500 1499 from rfl, h]
  rfl

/-- C2 counterexample: on the concrete shrink of 1000-1999 to 1000-1499, the
pre-check and both shrink jobs succeed and the post-resize check job fails;
`execute` then returns false and sets the terminal status `StatusError`, which
is not `StatusFinishedWarning`, refuting the claim that a post-check failure
is downgraded to a warning and still counts as success. -/
theorem postcheck_failure_not_warning_counterexample :
    (exampleShrinkOp.execute (envFailAt 3) exampleInitState).1 = false
    ∧ (exampleShrinkOp.execute (envFailAt 3) exampleInitState).2.1 = OperationStatus.StatusError
    ∧ (exampleShrinkOp.execute (envFailAt 3) exampleInitState).2.2.trace =
        [(Job.checkFileSystem, true), (Job.resizeFileSystem 500, true),
         (Job.setPartGeometry 1000 500, true), (Job.checkFileSystem, false)]
    ∧ OperationStatus.StatusError ≠ OperationStatus.StatusFinishedWarning := by
  refine ⟨rfl, rfl, rfl, by decide⟩

/-- C2 (amended): if the pre-check and all composed shrink, move and grow
phase jobs succeed but the post-resize filesystem check job fails, the
operation finishes with terminal status `StatusError` and `execute` returns
false, counting as a failure (the code has no `StatusFinishedWarning`
downgrade for the post-check). -/
theorem postcheck_failure_is_error (op : ResizeOperation) (env : Nat → Bool)
    (s s1 s2 s3 s4 : ExecState)
    (hext : op.isExtended = false)
    (hcheck : op.canCheckFS = true)
    (hpre : runJob env s Job.checkFileSystem = (true, s1))
    (hshrink : op.shrink env s1 = (true, s2))
    (hmove : op.move env s2 = (true, s3))
    (hgrow : op.grow env s3 = (true, s4))
    (hpost : env s4.trace.length = false) :
    (op.execute env s).1 = false
    ∧ (op.execute env s).2.1 = OperationStatus.StatusError := by
  have hme : op.moveExtendedJob = Option.none := by
    simp [ResizeOperation.moveExtendedJob, hext]
  simp only [ResizeOperation.execute, hcheck, hme, hpre, if_true]
  simp only [hshrink, hmove, hgrow]
  simp [runJob, hpost]

/-- C2 witness: the amended statement applied to the concrete shrink scenario
whose post-check fails. -/
theorem postcheck_failure_is_error_witness :
    (exampleShrinkOp.execute (envFailAt 3) exampleInitState).2.1 =
      OperationStatus.StatusError :=
  (postcheck_failure_is_error exampleShrinkOp (envFailAt 3) exampleInitState
    { geom := { firstSector := 1000, lastSector := 1999 },
      trace := [(Job.checkFileSystem, true)] }
    { geom := { firstSector := 1000, lastSector := 1499 },
      trace := [(Job.checkFileSystem, true), (Job.resizeFileSystem 500, true),
                (Job.setPartGeometry 1000 500, true)] }
    { geom := { firstSector := 1000, lastSector := 1499 },
      trace := [(Job.checkFileSystem, true), (Job.resizeFileSystem 500, true),
                (Job.setPartGeometry 1000 500, true)] }
    { geom := { firstSector := 1000, lastSector := 1499 },
      trace := [(Job.checkFileSystem, true), (Job.resizeFileSystem 500, true),
                (Job.setPartGeometry 1000 500, true)] }
    rfl rfl (by decide) (by decide) (by decide) (by decide) (by decide)).2

/-- C6: shrink-phase failures never run a compensating geometry job. If the
shrink-filesystem job fails, the phase stops with the geometry untouched and
no geometry job in the trace; if the shrink-geometry job fails after the
shrink-filesystem job succeeded, exactly those two jobs ran, with no rollback
job after them; and a failed shrink phase aborts the whole operation with
terminal error status, the move and grow phases never running (the final state
is exactly the state the shrink phase left behind). -/
theorem shrink_failure_no_rollback (op : ResizeOperation) (env : Nat → Bool)
    (hext : op.isExtended = false)
    (hsb : (op.action &&& ResizeAction.Shrink != 0) = true) :
    (∀ s : ExecState, env s.trace.length = false →
      op.shrink env s =
        (false, { geom := s.geom,
                  trace := s.trace ++ [(Job.resizeFileSystem op.newLength, false)] }))
    ∧ (∀ s : ExecState, env s.trace.length = true → env (s.trace.length + 1) = false →
      op.shrink env s =
        (false, { geom := s.geom,
                  trace := s.trace ++
                    [(Job.resizeFileSystem op.newLength, true),
                     (Job.setPartGeometry op.origFirstSector op.newLength, false)] }))
    ∧ (∀ s0 s1 : ExecState,
        (if op.canCheckFS then runJob env s0 Job.checkFileSystem else (true, s0)) = (true, s1) →
        (op.shrink env s1).1 = false →
        op.execute env s0 = (false, OperationStatus.StatusError, (op.shrink env s1).2)) := by
  have hsr : op.shrinkResizeJob = some (Job.resizeFileSystem op.newLength) := by
    simp [ResizeOperation.shrinkResizeJob, hext, hsb]
  have hsg : op.shrinkSetGeomJob = some (Job.setPartGeometry op.origFirstSector op.newLength) := by
    simp [ResizeOperation.shrinkSetGeomJob, hext, hsb]
  have hme : op.moveExtendedJob = Option.none := by
    simp [ResizeOperation.moveExtendedJob, hext]
  refine ⟨fun s h1 => ?_, fun s h1 h2 => ?_, fun s0 s1 hpre hsf => ?_⟩
  · simp [ResizeOperation.shrink, runOptJob, runJob, hsr, h1]
  · simp [ResizeOperation.shrink, runOptJob, runJob, hsr, hsg, h1, h2, applyJob]
  · rcases hd : op.shrink env s1 with ⟨b, st⟩
    rw [hd] at hsf
    simp only at hsf
    subst hsf
    simp only [ResizeOperation.execute, hpre, hme, if_true]
    simp [hd]

/-- C6 witness: on the concrete shrink whose shrink-filesystem job fails, the
shrink phase stops after that single failed job with the geometry unchanged,
and execute ends in StatusError with nothing else run. -/
theorem shrink_failure_no_rollback_witness :
    exampleShrinkOp.shrink (envFailAt 1)
      { geom := { firstSector := 1000, lastSector := 1999 },
        trace := [(Job.checkFileSystem, true)] } =
      (false, { geom := { firstSector := 1000, lastSector := 1999 },
                trace := [(Job.checkFileSystem, true), (Job.resizeFileSystem 500, false)] })
    ∧ exampleShrinkOp.execute (envFailAt 1) exampleInitState =
        (false, OperationStatus.StatusError,
          { geom := { firstSector := 1000, lastSector := 1999 },
            trace := [(Job.checkFileSystem, true), (Job.resizeFileSystem 500, false)] }) := by
  have h := shrink_failure_no_rollback exampleShrinkOp (envFailAt 1) rfl (by decide)
  refine ⟨?_, ?_⟩
  · exact h.1
      { geom := { firstSector := 1000, lastSector := 1999 },
        trace := [(Job.checkFileSystem, true)] } (by decide)
  · exact h.2.2 exampleInitState
      { geom := { firstSector := 1000, lastSector := 1999 },
        trace := [(Job.checkFileSystem, true)] } (by decide) (by decide)

/-- C4: if the move-geometry job succeeds and the move-filesystem job fails, a
compensating geometry-set job carrying the pre-move first sector runs (its
success restores that first sector) and the phase reports failure; the same
holds symmetrically for the grow phase with the pre-grow length; and a failed
move or grow phase makes execute return false with terminal status
`StatusError`, also when the compensating job itself failed (the conclusion
holds for either outcome of the compensating job). -/
theorem move_grow_rollback (op : ResizeOperation) (env : Nat → Bool)
    (hext : op.isExtended = false) :
    (((op.action &&& ResizeAction.MoveLeft != 0)
        || (op.action &&& ResizeAction.MoveRight != 0)) = true →
      ∀ s : ExecState, env s.trace.length = true → env (s.trace.length + 1) = false →
        (op.move env s).1 = false
        ∧ (op.move env s).2.trace = s.trace ++
            [(Job.setPartGeometry op.newFirstSector op.moveCurrentLength, true),
             (Job.moveFileSystem op.newFirstSector, false),
             (Job.setPartGeometry s.geom.firstSector op.moveCurrentLength,
               env (s.trace.length + 2))]
        ∧ (env (s.trace.length + 2) = true →
            (op.move env s).2.geom.firstSector = s.geom.firstSector))
    ∧ ((op.action &&& ResizeAction.Grow != 0) = true →
      ∀ s : ExecState, env s.trace.length = true → env (s.trace.length + 1) = false →
        (op.grow env s).1 = false
        ∧ (op.grow env s).2.trace = s.trace ++
            [(Job.setPartGeometry op.newFirstSector op.newLength, true),
             (Job.resizeFileSystem op.newLength, false),
             (Job.setPartGeometry op.newFirstSector s.geom.length, env (s.trace.length + 2))]
        ∧ (env (s.trace.length + 2) = true →
            (op.grow env s).2.geom.length = s.geom.length))
    ∧ (∀ s0 s1 s2 : ExecState,
        (if op.canCheckFS then runJob env s0 Job.checkFileSystem else (true, s0)) = (true, s1) →
        op.shrink env s1 = (true, s2) →
        (op.move env s2).1 = false →
        op.execute env s0 = (false, OperationStatus.StatusError, (op.move env s2).2))
    ∧ (∀ s0 s1 s2 s3 : ExecState,
        (if op.canCheckFS then runJob env s0 Job.checkFileSystem else (true, s0)) = (true, s1) →
        op.shrink env s1 = (true, s2) →
        op.move env s2 = (true, s3) →
        (op.grow env s3).1 = false →
        op.execute env s0 = (false, OperationStatus.StatusError, (op.grow env s3).2)) := by
  have hme : op.moveExtendedJob = Option.none := by
    simp [ResizeOperation.moveExtendedJob, hext]
  have harith : ∀ a b : Int, a + b - 1 - a + 1 = b := fun a b => by ring
  refine ⟨fun hmb s h1 h2 => ?_, fun hgb s h1 h2 => ?_,
    fun s0 s1 s2 hpre hshr hmv => ?_, fun s0 s1 s2 s3 hpre hshr hmv hgr => ?_⟩
  · have hmg : op.moveSetGeomJob =
        some (Job.setPartGeometry op.newFirstSector op.moveCurrentLength) := by
      simp only [ResizeOperation.moveSetGeomJob, hext, hmb]
      simp
    have hmf : op.moveFileSystemJob = some (Job.moveFileSystem op.newFirstSector) := by
      simp only [ResizeOperation.moveFileSystemJob, hext, hmb]
      simp
    refine ⟨?_, ?_, fun h3 => ?_⟩ <;>
      simp [ResizeOperation.move, runOptJob, runJob, hmg, hmf, h1, h2, applyJob,
        PartGeom.length, harith, Nat.add_assoc]
    simp [h3]
  · have hgg : op.growSetGeomJob =
        some (Job.setPartGeometry op.newFirstSector op.newLength) := by
      simp only [ResizeOperation.growSetGeomJob, hext, hgb]
      simp
    have hgr : op.growResizeJob = some (Job.resizeFileSystem op.newLength) := by
      simp only [ResizeOperation.growResizeJob, hext, hgb]
      simp
    refine ⟨?_, ?_, fun h3 => ?_⟩ <;>
      simp [ResizeOperation.grow, runOptJob, runJob, hgg, hgr, h1, h2, applyJob,
        PartGeom.length, harith, Nat.add_assoc]
    simp [h3]
    omega
  · rcases hd : op.move env s2 with ⟨b, st⟩
    rw [hd] at hmv
    simp only at hmv
    subst hmv
    simp only [ResizeOperation.execute, hpre, hme, if_true]
    simp [hshr, hd]
  · rcases hd : op.grow env s3 with ⟨b, st⟩
    rw [hd] at hgr
    simp only at hgr
    subst hgr
    simp only [ResizeOperation.execute, hpre, hme, if_true]
    simp [hshr, hmv, hd]

/-- C4 witness: the concrete pure move whose move-filesystem job fails runs
the compensating geometry job with the original first sector 1000, restoring
it, and execute ends in StatusError. -/
theorem move_grow_rollback_witness :
    (exampleMoveOp.move (envFailAt 2)
      { geom := { firstSector := 1000, lastSector := 1999 },
        trace := [(Job.checkFileSystem, true)] }).2.trace =
      [(Job.checkFileSystem, true), (Job.setPartGeometry 500 1000, true),
       (Job.moveFileSystem 500, false), (Job.setPartGeometry 1000 1000, true)]
    ∧ exampleMoveOp.execute (envFailAt 2) exampleInitState =
        (false, OperationStatus.StatusError,
          { geom := { firstSector := 1000, lastSector := 1999 },
            trace := [(Job.checkFileSystem, true), (Job.setPartGeometry 500 1000, true),
                      (Job.moveFileSystem 500, false),
                      (Job.setPartGeometry 1000 1000, true)] }) := by
  have h := move_grow_rollback exampleMoveOp (envFailAt 2) rfl
  refine ⟨?_, ?_⟩
  · exact (h.1 (by decide)
      { geom := { firstSector := 1000, lastSector := 1999 },
        trace := [(Job.checkFileSystem, true)] } (by decide) (by decide)).2.1
  · exact h.2.2.1 exampleInitState
      { geom := { firstSector := 1000, lastSector := 1999 },
        trace := [(Job.checkFileSystem, true)] }
      { geom := { firstSector := 1000, lastSector := 1999 },
        trace := [(Job.checkFileSystem, true)] }
      (by decide) (by decide) (by decide)

/-- C9 counterexample: a concrete partition in `New` state on a GPT table, not
a dirty volume-group member, carrying the Luks role, unmounted, whose
filesystem reports no grow and no shrink support: `canGrow` and `canShrink`
return false, refuting the claim that for `New`-state partitions only
`canMove` has a Luks exception. -/
theorem new_state_eligibility_counterexample :
    luksNewPartition.state = PartitionState.New
    ∧ luksNewPartition.tableType ≠ TableType.none
    ∧ isLVMPVinNewlyVG luksNewPartition = false
    ∧ canGrow (some luksNewPartition) = false
    ∧ canShrink (some luksNewPartition) = false := by
  refine ⟨rfl, by decide, rfl, rfl, rfl⟩

/-- C9 (amended): for a partition in `New` state on a device with a real
partition table and not a member of a dirty volume group: if it does not carry
the Luks role, `canGrow`, `canShrink` and `canMove` all return true; if it
carries the Luks role, `canMove` returns false, while `canGrow` and
`canShrink` fall back to the filesystem capability gates (online variant when
mounted, offline tier otherwise). -/
theorem new_state_eligibility (p : Partition)
    (htable : p.tableType ≠ TableType.none)
    (hdirty : isLVMPVinNewlyVG p = false)
    (hnew : p.state = PartitionState.New) :
    (p.roles.luks = false →
      canGrow (some p) = true ∧ canShrink (some p) = true ∧ canMove (some p) = true)
    ∧ (p.roles.luks = true →
      canMove (some p) = false
      ∧ canGrow (some p) =
          (if p.isMounted then p.fileSystem.supportGrowOnline
           else p.fileSystem.supportGrow != CommandSupportType.cmdSupportNone)
      ∧ canShrink (some p) =
          (if p.isMounted then p.fileSystem.supportShrinkOnline
           else p.fileSystem.supportShrink != CommandSupportType.cmdSupportNone)) := by
  have hcopy : p.state ≠ PartitionState.Copy := by rw [hnew]; intro hc; cases hc
  constructor
  · intro hl
    refine ⟨?_, ?_, ?_⟩ <;> simp [canGrow, canShrink, canMove, htable, hdirty, hnew, hl]
  · intro hl
    refine ⟨?_, ?_, ?_⟩ <;>
      simp [canGrow, canShrink, canMove, htable, hdirty, hnew, hl, hcopy]

/-- C9 witness: the amended statement applied to the concrete non-Luks
`New`-state partition, for which all three predicates hold. -/
theorem new_state_eligibility_witness :
    canGrow (some exampleNewPartition) = true
    ∧ canShrink (some exampleNewPartition) = true
    ∧ canMove (some exampleNewPartition) = true :=
  (new_state_eligibility exampleNewPartition (by decide) rfl rfl).1 rfl

end KpmCore
